import Mathlib

/-!
Shallow embedding of the ETF auto-invest portfolio allocator
(src/modules/portfolio_allocator.py) and the DIP-buy entry point
(src/modules/strategy.py).  Python floats are modelled as rationals,
Python int() as truncation toward zero, Python exceptions as Except.
-/

/-- Python int() applied to a nonintegral number: truncation toward zero. -/
def pyInt (q : ℚ) : ℤ := if q < 0 then -(Int.floor (-q)) else Int.floor q

/-- The Python exceptions reachable in the allocator: ZeroDivisionError from
a division by zero, ValueError raised explicitly by the code. -/
inductive PyError where
  | zeroDivision : PyError
  | valueError : String → PyError
deriving DecidableEq

/-- One entry of the configured ETF_LIST, with the dictionary defaults the
code applies already filled in: category UNKNOWN, priority 999, weight 1,
custom_ratio 0 stand for absent keys.  Only enabled entries reach
active_etfs (portfolio_allocator.py line 17). -/
structure ETF where
  code : String
  name : String
  category : String
  priority : ℤ
  weight : ℚ
  custom_ratio : ℚ
deriving DecidableEq

/-- A line of the allocation plan returned by calculate_allocation
(portfolio_allocator.py lines 33-39).  The weight key that
_weighted_allocation additionally stores is never read downstream and is
omitted. -/
structure AllocationLine where
  code : String
  name : String
  category : String
  allocated_amount : ℚ
  ratio : ℚ
  priority : ℤ
deriving DecidableEq

/-- A buy order produced by calculate_buy_quantities
(portfolio_allocator.py lines 225-235). -/
structure BuyOrder where
  code : String
  name : String
  category : String
  allocated_amount : ℚ
  current_price : ℚ
  quantity : ℤ
  actual_amount : ℚ
  remainder : ℚ
  priority : ℤ
deriving DecidableEq

/-- One value of the CATEGORY_LIMITS configuration map; max_allocation is
None when the key is absent. -/
structure CategoryLimit where
  max_allocation : Option ℚ
deriving DecidableEq

/-- One dip opportunity as consumed by execute_dip_buy (strategy.py):
only the code and current_price fields are read by the allocation path. -/
structure Opportunity where
  code : String
  current_price : ℚ
deriving DecidableEq

/-- Sort key of sorted(allocations, key=lambda x: x['priority']). -/
def lineLe (a b : AllocationLine) : Prop := a.priority ≤ b.priority

instance : DecidableRel lineLe := fun a b => Int.decLe a.priority b.priority

/-- Sort key of sorted(buy_orders, key=lambda x: x['priority']). -/
def orderLe (a b : BuyOrder) : Prop := a.priority ≤ b.priority

instance : DecidableRel orderLe := fun a b => Int.decLe a.priority b.priority

/-- portfolio_allocator.py lines 64-80, _equal_allocation: divide the total
equally; the division by count raises ZeroDivisionError when the active
list is empty. -/
def _equal_allocation (active : List ETF) (total_amount : ℚ) :
    Except PyError (List AllocationLine) :=
  if active.length = 0 then .error .zeroDivision
  else
    .ok (List.insertionSort lineLe (active.map (fun etf =>
      { code := etf.code, name := etf.name, category := etf.category,
        allocated_amount := total_amount / (active.length : ℚ),
        ratio := 1 / (active.length : ℚ),
        priority := etf.priority })))

/-- Loop body of _weighted_allocation (portfolio_allocator.py lines 88-102):
ratio = weight / total_weight raises ZeroDivisionError at the first
iteration when the weights sum to zero. -/
def weightedGo (total_weight total_amount : ℚ) :
    List ETF → Except PyError (List AllocationLine)
  | [] => .ok []
  | etf :: rest =>
    if total_weight = 0 then .error .zeroDivision
    else
      match weightedGo total_weight total_amount rest with
      | .error e => .error e
      | .ok lines =>
        .ok ({ code := etf.code, name := etf.name, category := etf.category,
               allocated_amount := total_amount * (etf.weight / total_weight),
               ratio := etf.weight / total_weight,
               priority := etf.priority } :: lines)

/-- Per-category sums of allocated amounts (portfolio_allocator.py
lines 160-163). -/
def categoryTotals (allocations : List AllocationLine) (cat : String) : ℚ :=
  ((allocations.filter (fun a => a.category == cat)).map
    (fun a => a.allocated_amount)).sum

/-- The max_allocation limit configured for a category:
self.category_limits.get(cat, \x7b\x7d).get('max_allocation')
(portfolio_allocator.py lines 169-171). -/
def capOf (category_limits : List (String × CategoryLimit)) (cat : String) :
    Option ℚ :=
  (category_limits.lookup cat).bind (fun l => l.max_allocation)

/-- Body of the adjustment loop of _apply_category_limits
(portfolio_allocator.py lines 167-183) for one line.  A falsy
max_allocation (absent key or zero) skips the line; cat_ratio =
cat_total / total_amount raises ZeroDivisionError when total_amount is
zero, and scale_factor = max_limit / cat_ratio raises it when cat_ratio
is zero (reachable only for a negative, hence truthy, limit). -/
def adjustLineE (category_limits : List (String × CategoryLimit))
    (allocations : List AllocationLine) (total_amount : ℚ)
    (alloc : AllocationLine) : Except PyError AllocationLine :=
  match capOf category_limits alloc.category with
  | none => .ok alloc
  | some max_limit =>
    if max_limit = 0 then .ok alloc
    else if total_amount = 0 then .error .zeroDivision
    else
      let cat_ratio := categoryTotals allocations alloc.category / total_amount
      if max_limit < cat_ratio then
        if cat_ratio = 0 then .error .zeroDivision
        else
          .ok { alloc with
                allocated_amount :=
                  alloc.allocated_amount * (max_limit / cat_ratio),
                ratio := alloc.ratio * (max_limit / cat_ratio) }
      else .ok alloc

/-- The adjustment loop of _apply_category_limits over the lines; the full
allocation list is kept for the category totals dict computed up front. -/
def applyLimitsGo (category_limits : List (String × CategoryLimit))
    (allocations : List AllocationLine) (total_amount : ℚ) :
    List AllocationLine → Except PyError (List AllocationLine)
  | [] => .ok []
  | alloc :: rest =>
    match adjustLineE category_limits allocations total_amount alloc with
    | .error e => .error e
    | .ok adjustedLine =>
      match applyLimitsGo category_limits allocations total_amount rest with
      | .error e => .error e
      | .ok rest2 => .ok (adjustedLine :: rest2)

/-- portfolio_allocator.py lines 153-185, _apply_category_limits: empty
CATEGORY_LIMITS returns the allocations untouched, otherwise every line is
run through the per-line adjustment. -/
def _apply_category_limits (category_limits : List (String × CategoryLimit))
    (allocations : List AllocationLine) (total_amount : ℚ) :
    Except PyError (List AllocationLine) :=
  if category_limits = [] then .ok allocations
  else applyLimitsGo category_limits allocations total_amount allocations

/-- Error-free reading of the per-line adjustment, used to characterise
_apply_category_limits when no division by zero can occur. -/
def adjustLine (category_limits : List (String × CategoryLimit))
    (allocations : List AllocationLine) (total_amount : ℚ)
    (alloc : AllocationLine) : AllocationLine :=
  match capOf category_limits alloc.category with
  | none => alloc
  | some max_limit =>
    if max_limit = 0 then alloc
    else
      let cat_ratio := categoryTotals allocations alloc.category / total_amount
      if max_limit < cat_ratio then
        { alloc with
          allocated_amount := alloc.allocated_amount * (max_limit / cat_ratio),
          ratio := alloc.ratio * (max_limit / cat_ratio) }
      else alloc

/-- portfolio_allocator.py lines 82-107, _weighted_allocation: build the
weighted lines, apply the category limits, sort by priority. -/
def _weighted_allocation (category_limits : List (String × CategoryLimit))
    (active : List ETF) (total_amount : ℚ) :
    Except PyError (List AllocationLine) :=
  match weightedGo ((active.map (fun e => e.weight)).sum) total_amount active with
  | .error e => .error e
  | .ok lines =>
    match _apply_category_limits category_limits lines total_amount with
    | .error e => .error e
    | .ok limited => .ok (List.insertionSort lineLe limited)

/-- Loop body of _custom_allocation (portfolio_allocator.py lines 119-131):
ratio = custom_ratio / total_ratio raises ZeroDivisionError at the first
iteration when the custom ratios sum to zero. -/
def customGo (total_ratio total_amount : ℚ) :
    List ETF → Except PyError (List AllocationLine)
  | [] => .ok []
  | etf :: rest =>
    if total_ratio = 0 then .error .zeroDivision
    else
      match customGo total_ratio total_amount rest with
      | .error e => .error e
      | .ok lines =>
        .ok ({ code := etf.code, name := etf.name, category := etf.category,
               allocated_amount := total_amount * (etf.custom_ratio / total_ratio),
               ratio := etf.custom_ratio / total_ratio,
               priority := etf.priority } :: lines)

/-- portfolio_allocator.py lines 109-133, _custom_allocation: normalise by
the sum of the custom ratios (an off-one sum only prints a warning) and
sort by priority. -/
def _custom_allocation (active : List ETF) (total_amount : ℚ) :
    Except PyError (List AllocationLine) :=
  match customGo ((active.map (fun e => e.custom_ratio)).sum) total_amount active with
  | .error e => .error e
  | .ok lines => .ok (List.insertionSort lineLe lines)

/-- portfolio_allocator.py lines 49-62, _calculate_regular_allocation:
dispatch on allocation_method, raising ValueError on an unknown name. -/
def _calculate_regular_allocation (allocation_method : String)
    (category_limits : List (String × CategoryLimit)) (active : List ETF)
    (total_amount : ℚ) : Except PyError (List AllocationLine) :=
  if allocation_method = "EQUAL" then _equal_allocation active total_amount
  else if allocation_method = "WEIGHTED" then
    _weighted_allocation category_limits active total_amount
  else if allocation_method = "CUSTOM" then _custom_allocation active total_amount
  else .error (.valueError ("Unknown allocation method: " ++ allocation_method))

/-- portfolio_allocator.py lines 135-151, _calculate_dip_allocation:
dispatch on dip_allocation_method; an unknown name falls back to
_equal_allocation instead of raising. -/
def _calculate_dip_allocation (dip_allocation_method : String)
    (category_limits : List (String × CategoryLimit)) (active : List ETF)
    (total_amount : ℚ) : Except PyError (List AllocationLine) :=
  if dip_allocation_method = "FOCUS" then _equal_allocation active total_amount
  else if dip_allocation_method = "EQUAL" then _equal_allocation active total_amount
  else if dip_allocation_method = "WEIGHTED" then
    _weighted_allocation category_limits active total_amount
  else _equal_allocation active total_amount

/-- portfolio_allocator.py lines 24-47, calculate_allocation: dispatch on
the mode string. -/
def calculate_allocation (allocation_method dip_allocation_method : String)
    (category_limits : List (String × CategoryLimit)) (active : List ETF)
    (total_amount : ℚ) (mode : String) : Except PyError (List AllocationLine) :=
  if mode = "REGULAR" then
    _calculate_regular_allocation allocation_method category_limits active total_amount
  else if mode = "DIP" then
    _calculate_dip_allocation dip_allocation_method category_limits active total_amount
  else .error (.valueError ("Unknown mode: " ++ mode))

/-- Main loop of calculate_buy_quantities (portfolio_allocator.py
lines 210-235): a code that is absent from current_prices is skipped, a
zero price raises ZeroDivisionError at int(allocated / price), otherwise
the order is built and its remainder accumulated.  The second component is
the running total_remainder. -/
def resolveOrders : List AllocationLine → List (String × ℚ) →
    Except PyError (List BuyOrder × ℚ)
  | [], _ => .ok ([], 0)
  | alloc :: rest, current_prices =>
    match current_prices.lookup alloc.code with
    | none => resolveOrders rest current_prices
    | some price =>
      if price = 0 then .error .zeroDivision
      else
        match resolveOrders rest current_prices with
        | .error e => .error e
        | .ok (os, rem) =>
          let quantity := pyInt (alloc.allocated_amount / price)
          let actual_amount := (quantity : ℚ) * price
          .ok ({ code := alloc.code, name := alloc.name,
                 category := alloc.category,
                 allocated_amount := alloc.allocated_amount,
                 current_price := price, quantity := quantity,
                 actual_amount := actual_amount,
                 remainder := alloc.allocated_amount - actual_amount,
                 priority := alloc.priority } :: os,
               (alloc.allocated_amount - actual_amount) + rem)

/-- portfolio_allocator.py lines 246-270, _redistribute_remainder: one
forward pass over the orders; the loop breaks at the first order whose
price exceeds the running remainder, leaving that order and every later
one untouched.  The second component is the final value of the local
total_remainder. -/
def _redistribute_remainder : List BuyOrder → ℚ → List BuyOrder × ℚ
  | [], total_remainder => ([], total_remainder)
  | order :: rest, total_remainder =>
    if total_remainder < order.current_price then (order :: rest, total_remainder)
    else
      let additional_qty := pyInt (total_remainder / order.current_price)
      if 0 < additional_qty then
        let additional_amount := (additional_qty : ℚ) * order.current_price
        let p := _redistribute_remainder rest (total_remainder - additional_amount)
        ({ order with quantity := order.quantity + additional_qty,
                      actual_amount := order.actual_amount + additional_amount }
          :: p.1, p.2)
      else
        let p := _redistribute_remainder rest total_remainder
        (order :: p.1, p.2)

/-- portfolio_allocator.py lines 187-244, calculate_buy_quantities,
instrumented with the final value of the local total_remainder: resolve
the orders, sort them by priority, redistribute when the remainder is
positive. -/
def calculate_buy_quantities_full (allocations : List AllocationLine)
    (current_prices : List (String × ℚ)) : Except PyError (List BuyOrder × ℚ) :=
  match resolveOrders allocations current_prices with
  | .error e => .error e
  | .ok (buy_orders, total_remainder) =>
    let sorted_orders := List.insertionSort orderLe buy_orders
    if 0 < total_remainder then
      .ok (_redistribute_remainder sorted_orders total_remainder)
    else .ok (sorted_orders, total_remainder)

/-- portfolio_allocator.py calculate_buy_quantities as the Python code
returns it: the order list alone. -/
def calculate_buy_quantities (allocations : List AllocationLine)
    (current_prices : List (String × ℚ)) : Except PyError (List BuyOrder) :=
  match calculate_buy_quantities_full allocations current_prices with
  | .error e => .error e
  | .ok p => .ok p.1

/-- strategy.py lines 121-183, execute_dip_buy, restricted to its effect on
the allocator state: the pair returned is (outcome, final active_etfs).
The active universe is overwritten with the flagged codes, the allocation
pipeline runs, and the original list is assigned back only on the normal
path; a Python exception inside the pipeline propagates with active_etfs
still narrowed.  External I/O (balance lookup, Discord, broker orders) is
abstracted into the balance argument and the order_success flag standing
for the result of _execute_buy_orders. -/
def execute_dip_buy (allocation_method dip_allocation_method : String)
    (category_limits : List (String × CategoryLimit)) (active_etfs : List ETF)
    (balance dip_buy_amount : ℚ) (opportunities : List Opportunity)
    (auto_trade order_success : Bool) : Except PyError Bool × List ETF :=
  if opportunities = [] then (.ok false, active_etfs)
  else if balance < dip_buy_amount then (.ok false, active_etfs)
  else
    let dip_codes := opportunities.map (fun o => o.code)
    let original_etfs := active_etfs
    let narrowed := original_etfs.filter (fun etf => dip_codes.contains etf.code)
    match calculate_allocation allocation_method dip_allocation_method
        category_limits narrowed dip_buy_amount "DIP" with
    | .error e => (.error e, narrowed)
    | .ok allocations =>
      let current_prices :=
        (opportunities.map (fun o => (o.code, o.current_price))).reverse
      match calculate_buy_quantities allocations current_prices with
      | .error e => (.error e, narrowed)
      | .ok _buy_orders =>
        if auto_trade then (.ok order_success, original_etfs)
        else (.ok true, original_etfs)

/-! ### Arithmetic helper lemmas -/

theorem pyInt_eval_nonneg (q : ℚ) (n : ℤ) (h0 : 0 ≤ q) (h1 : (n : ℚ) ≤ q)
    (h2 : q < n + 1) : pyInt q = n := by
  rw [pyInt, if_neg (not_lt.mpr h0), Int.floor_eq_iff]
  exact ⟨h1, by exact_mod_cast h2⟩

theorem pyInt_eval_neg (q : ℚ) (n : ℤ) (h0 : q < 0) (h1 : (n : ℚ) - 1 < q)
    (h2 : q ≤ n) : pyInt q = n := by
  rw [pyInt, if_pos h0]
  have hf : Int.floor (-q) = -n := by
    rw [Int.floor_eq_iff]
    constructor
    · push_cast
      linarith
    · push_cast
      linarith
  rw [hf]
  ring

theorem pyInt_of_nonneg (q : ℚ) (h : 0 ≤ q) : pyInt q = Int.floor q := by
  rw [pyInt, if_neg (not_lt.mpr h)]

/-- The integer remainder left by Python int division of a nonnegative
amount by a positive price is nonnegative and below the price. -/
theorem pyInt_rem_bounds (a p : ℚ) (ha : 0 ≤ a) (hp : 0 < p) :
    0 ≤ a - (pyInt (a / p) : ℚ) * p ∧ a - (pyInt (a / p) : ℚ) * p < p := by
  have hq : 0 ≤ a / p := div_nonneg ha hp.le
  rw [pyInt_of_nonneg _ hq]
  have h1 : (Int.floor (a / p) : ℚ) ≤ a / p := Int.floor_le _
  have h2 : a / p < Int.floor (a / p) + 1 := Int.lt_floor_add_one _
  constructor
  · have := (le_div_iff₀ hp).mp h1
    linarith
  · have := (div_lt_iff₀ hp).mp h2
    nlinarith

theorem lookup_some_mem {β : Type} {l : List (String × β)} {k : String} {v : β}
    (h : l.lookup k = some v) : ∃ p ∈ l, p.2 = v := by
  induction l with
  | nil => simp [List.lookup] at h
  | cons hd tl ih =>
    rw [List.lookup] at h
    cases hk : (k == hd.1) with
    | true =>
      rw [hk] at h
      exact ⟨hd, List.mem_cons_self hd tl, by injection h⟩
    | false =>
      rw [hk] at h
      obtain ⟨p, hp, hv⟩ := ih h
      exact ⟨p, List.mem_cons_of_mem hd hp, hv⟩

/-! ### Invariants of the quantity-resolution loop -/

/-- Conservation in the resolution loop: actual amounts plus the
accumulated remainder equal the allocated amounts of the resolved lines. -/
theorem resolveOrders_conserves (allocations : List AllocationLine)
    (current_prices : List (String × ℚ)) (os : List BuyOrder) (r : ℚ)
    (h : resolveOrders allocations current_prices = .ok (os, r)) :
    ((os.map (fun o => o.actual_amount)).sum) + r =
      (os.map (fun o => o.allocated_amount)).sum := by
  induction allocations generalizing os r with
  | nil =>
    rw [resolveOrders] at h
    injection h with h1
    injection h1 with ha hb
    subst ha
    subst hb
    simp
  | cons a rest ih =>
    rw [resolveOrders] at h
    split at h
    · exact ih os r h
    · split at h
      · exact absurd h (by simp)
      · split at h
        · exact absurd h (by simp)
        · rename_i price hne os' rem heq
          injection h with h1
          injection h1 with ha hb
          subst ha
          subst hb
          have hih := ih os' rem heq
          simp only [List.map_cons, List.sum_cons]
          linarith

/-- When every listed price is positive the resolution loop cannot raise,
and every resolved order records its price, truncated quantity, actual
amount and remainder consistently. -/
theorem resolveOrders_spec (allocations : List AllocationLine)
    (current_prices : List (String × ℚ))
    (hpos : ∀ x ∈ current_prices, 0 < x.2) :
    ∃ os r, resolveOrders allocations current_prices = .ok (os, r) ∧
      ∀ o ∈ os, 0 < o.current_price ∧
        o.quantity = pyInt (o.allocated_amount / o.current_price) ∧
        o.actual_amount = (o.quantity : ℚ) * o.current_price ∧
        o.remainder = o.allocated_amount - o.actual_amount ∧
        ∃ a ∈ allocations, o.allocated_amount = a.allocated_amount := by
  induction allocations with
  | nil => exact ⟨[], 0, rfl, by simp⟩
  | cons a rest ih =>
    obtain ⟨os, r, hok, hall⟩ := ih
    rw [resolveOrders]
    cases hlk : List.lookup a.code current_prices with
    | none =>
      refine ⟨os, r, hok, fun o ho => ?_⟩
      obtain ⟨h1, h2, h3, h4, a0, ha0, h5⟩ := hall o ho
      exact ⟨h1, h2, h3, h4, a0, List.mem_cons_of_mem a ha0, h5⟩
    | some price =>
      have hp : 0 < price := by
        obtain ⟨pr, hpr, hv⟩ := lookup_some_mem hlk
        exact hv ▸ hpos pr hpr
      dsimp only
      rw [if_neg (ne_of_gt hp), hok]
      refine ⟨_, _, rfl, fun o ho => ?_⟩
      rcases List.mem_cons.mp ho with h1 | h2
      · subst h1
        refine ⟨hp, rfl, rfl, rfl, a, List.mem_cons_self a rest, rfl⟩
      · obtain ⟨g1, g2, g3, g4, a0, ha0, g5⟩ := hall o h2
        exact ⟨g1, g2, g3, g4, a0, List.mem_cons_of_mem a ha0, g5⟩

/-- Conservation of the redistribution pass: actual amounts plus the
running remainder are unchanged. -/
theorem redistribute_conserves (os : List BuyOrder) (r : ℚ) :
    (((_redistribute_remainder os r).1.map (fun o => o.actual_amount)).sum)
        + (_redistribute_remainder os r).2 =
      ((os.map (fun o => o.actual_amount)).sum) + r := by
  induction os generalizing r with
  | nil => simp [_redistribute_remainder]
  | cons o rest ih =>
    rw [_redistribute_remainder]
    by_cases h1 : r < o.current_price
    · rw [if_pos h1]
    · rw [if_neg h1]
      by_cases h2 : 0 < pyInt (r / o.current_price)
      · simp only [if_pos h2, List.map_cons, List.sum_cons]
        have hih := ih (r - (pyInt (r / o.current_price) : ℚ) * o.current_price)
        linarith
      · simp only [if_neg h2, List.map_cons, List.sum_cons]
        have hih := ih r
        linarith

/-- The redistribution pass touches only the quantity and actual_amount
fields: any projection blind to those two fields is preserved. -/
theorem redistribute_map_eq {β : Type} (f : BuyOrder → β)
    (hf : ∀ o q a, f { o with quantity := q, actual_amount := a } = f o)
    (os : List BuyOrder) (r : ℚ) :
    (_redistribute_remainder os r).1.map f = os.map f := by
  induction os generalizing r with
  | nil => simp [_redistribute_remainder]
  | cons o rest ih =>
    rw [_redistribute_remainder]
    by_cases h1 : r < o.current_price
    · rw [if_pos h1]
    · rw [if_neg h1]
      by_cases h2 : 0 < pyInt (r / o.current_price)
      · simp only [if_pos h2, List.map_cons]
        rw [ih, hf]
      · simp only [if_neg h2, List.map_cons]
        rw [ih]

/-- Every order coming out of the redistribution pass descends from an
input order with the same allocated amount, price and remainder field. -/
theorem redistribute_mem (os : List BuyOrder) (r : ℚ) :
    ∀ o2 ∈ (_redistribute_remainder os r).1, ∃ o ∈ os,
      o2.allocated_amount = o.allocated_amount ∧
      o2.current_price = o.current_price ∧
      o2.remainder = o.remainder := by
  induction os generalizing r with
  | nil =>
    intro o2 ho2
    simp [_redistribute_remainder] at ho2
  | cons o rest ih =>
    rw [_redistribute_remainder]
    by_cases h1 : r < o.current_price
    · rw [if_pos h1]
      intro o2 ho2
      exact ⟨o2, ho2, rfl, rfl, rfl⟩
    · rw [if_neg h1]
      by_cases h2 : 0 < pyInt (r / o.current_price)
      · simp only [if_pos h2]
        intro o2 ho2
        rcases List.mem_cons.mp ho2 with hh | hh
        · subst hh
          exact ⟨o, List.mem_cons_self o rest, rfl, rfl, rfl⟩
        · obtain ⟨o0, ho0, g⟩ :=
            ih (r - (pyInt (r / o.current_price) : ℚ) * o.current_price) o2 hh
          exact ⟨o0, List.mem_cons_of_mem o ho0, g⟩
      · simp only [if_neg h2]
        intro o2 ho2
        rcases List.mem_cons.mp ho2 with hh | hh
        · subst hh
          exact ⟨o2, List.mem_cons_self o2 rest, rfl, rfl, rfl⟩
        · obtain ⟨o0, ho0, g⟩ := ih r o2 hh
          exact ⟨o0, List.mem_cons_of_mem o ho0, g⟩

/-- Unfolding of calculate_buy_quantities_full over a successful
resolution. -/
theorem cbqf_eq (allocations : List AllocationLine)
    (current_prices : List (String × ℚ)) (os : List BuyOrder) (r : ℚ)
    (h : resolveOrders allocations current_prices = .ok (os, r)) :
    calculate_buy_quantities_full allocations current_prices =
      (if 0 < r then
        .ok (_redistribute_remainder (List.insertionSort orderLe os) r)
      else .ok (List.insertionSort orderLe os, r)) := by
  rw [calculate_buy_quantities_full, h]

/-- C2: when every listed price is positive, quantity resolution plus
redistribution conserves money: the sum of the actual amounts plus the
final remainder equals the sum of the allocated amounts of the resolved
lines. -/
theorem quantity_resolution_conserves_money (allocations : List AllocationLine)
    (current_prices : List (String × ℚ))
    (hpos : ∀ x ∈ current_prices, 0 < x.2) :
    ∃ os r, calculate_buy_quantities_full allocations current_prices = .ok (os, r) ∧
      ((os.map (fun o => o.actual_amount)).sum) + r =
        (os.map (fun o => o.allocated_amount)).sum := by
  obtain ⟨os0, r0, hok, _⟩ := resolveOrders_spec allocations current_prices hpos
  have hcons := resolveOrders_conserves allocations current_prices os0 r0 hok
  rw [cbqf_eq allocations current_prices os0 r0 hok]
  have hperm : List.Perm (List.insertionSort orderLe os0) os0 :=
    List.perm_insertionSort orderLe os0
  have hsum_act :
      ((List.insertionSort orderLe os0).map (fun o => o.actual_amount)).sum =
        (os0.map (fun o => o.actual_amount)).sum :=
    (hperm.map _).sum_eq
  have hsum_alloc :
      ((List.insertionSort orderLe os0).map (fun o => o.allocated_amount)).sum =
        (os0.map (fun o => o.allocated_amount)).sum :=
    (hperm.map _).sum_eq
  by_cases hr : 0 < r0
  · rw [if_pos hr]
    refine ⟨_, _, rfl, ?_⟩
    have h1 := redistribute_conserves (List.insertionSort orderLe os0) r0
    have h2 : ((_redistribute_remainder (List.insertionSort orderLe os0) r0).1.map
        (fun o => o.allocated_amount)).sum =
        ((List.insertionSort orderLe os0).map (fun o => o.allocated_amount)).sum := by
      rw [redistribute_map_eq (fun o => o.allocated_amount) (fun o q a => rfl)]
    linarith
  · rw [if_neg hr]
    exact ⟨_, _, rfl, by linarith⟩

/-- C3 (amended): when prices are positive and allocated amounts
nonnegative, every order in the final plan keeps the remainder computed
before redistribution, namely allocated minus the truncated quantity
times the price, a value that is nonnegative and below the price; the
redistribution pass updates quantity and actual_amount but never the
remainder field, so remainder = allocatedAmount - actualAmount can fail
after redistribution. -/
theorem remainder_field_bounds (allocations : List AllocationLine)
    (current_prices : List (String × ℚ))
    (hpos : ∀ x ∈ current_prices, 0 < x.2)
    (hnn : ∀ a ∈ allocations, 0 ≤ a.allocated_amount) :
    ∃ os r, calculate_buy_quantities_full allocations current_prices = .ok (os, r) ∧
      ∀ o ∈ os, 0 < o.current_price ∧
        o.remainder = o.allocated_amount -
          (pyInt (o.allocated_amount / o.current_price) : ℚ) * o.current_price ∧
        0 ≤ o.remainder ∧ o.remainder < o.current_price := by
  obtain ⟨os0, r0, hok, hall⟩ := resolveOrders_spec allocations current_prices hpos
  have hP : ∀ o ∈ os0, 0 < o.current_price ∧
      o.remainder = o.allocated_amount -
        (pyInt (o.allocated_amount / o.current_price) : ℚ) * o.current_price ∧
      0 ≤ o.remainder ∧ o.remainder < o.current_price := by
    intro o ho
    obtain ⟨h1, h2, h3, h4, a0, ha0, h5⟩ := hall o ho
    have hnn0 : 0 ≤ o.allocated_amount := h5 ▸ hnn a0 ha0
    have hb := pyInt_rem_bounds o.allocated_amount o.current_price hnn0 h1
    have hrem : o.remainder = o.allocated_amount -
        (pyInt (o.allocated_amount / o.current_price) : ℚ) * o.current_price := by
      rw [h4, h3, h2]
    exact ⟨h1, hrem, hrem ▸ hb.1, hrem ▸ hb.2⟩
  rw [cbqf_eq allocations current_prices os0 r0 hok]
  have hperm : List.Perm (List.insertionSort orderLe os0) os0 :=
    List.perm_insertionSort orderLe os0
  by_cases hr : 0 < r0
  · rw [if_pos hr]
    refine ⟨_, _, rfl, ?_⟩
    intro o2 ho2
    obtain ⟨o1, ho1, e1, e2, e3⟩ :=
      redistribute_mem (List.insertionSort orderLe os0) r0 o2 ho2
    obtain ⟨g1, g2, g3, g4⟩ := hP o1 (hperm.subset ho1)
    rw [e1, e2, e3]
    exact ⟨g1, g2, g3, g4⟩
  · rw [if_neg hr]
    exact ⟨_, _, rfl, fun o ho => hP o (hperm.subset ho)⟩

/-! ### Category-limit characterisation -/

theorem capOf_some_mem {category_limits : List (String × CategoryLimit)}
    {cat : String} {m : ℚ} (h : capOf category_limits cat = some m) :
    ∃ p ∈ category_limits, p.2.max_allocation = some m := by
  rw [capOf] at h
  cases hlk : category_limits.lookup cat with
  | none =>
    rw [hlk] at h
    exact Option.noConfusion h
  | some lim =>
    rw [hlk] at h
    obtain ⟨p, hp, hpv⟩ := lookup_some_mem hlk
    exact ⟨p, hp, by rw [hpv]; exact h⟩

/-- Under a nonzero total and nonnegative configured caps, the per-line
adjustment never raises and agrees with its pure description. -/
theorem adjustLineE_ok (category_limits : List (String × CategoryLimit))
    (allocations : List AllocationLine) (total_amount : ℚ)
    (alloc : AllocationLine) (htot : total_amount ≠ 0)
    (hcaps : ∀ p ∈ category_limits, ∀ m, p.2.max_allocation = some m → 0 ≤ m) :
    adjustLineE category_limits allocations total_amount alloc =
      .ok (adjustLine category_limits allocations total_amount alloc) := by
  unfold adjustLineE adjustLine
  cases hcap : capOf category_limits alloc.category with
  | none => rfl
  | some m =>
    have hm : 0 ≤ m := by
      obtain ⟨p, hp, hpv⟩ := capOf_some_mem hcap
      exact hcaps p hp m hpv
    dsimp only
    by_cases h0 : m = 0
    · rw [if_pos h0, if_pos h0]
    · rw [if_neg h0, if_neg h0, if_neg htot]
      by_cases hlt : m < categoryTotals allocations alloc.category / total_amount
      · have hcr : categoryTotals allocations alloc.category / total_amount ≠ 0 :=
          ne_of_gt (lt_of_le_of_lt hm hlt)
        rw [if_pos hlt, if_pos hlt, if_neg hcr]
      · rw [if_neg hlt, if_neg hlt]

theorem applyLimitsGo_ok (category_limits : List (String × CategoryLimit))
    (allocations : List AllocationLine) (total_amount : ℚ)
    (htot : total_amount ≠ 0)
    (hcaps : ∀ p ∈ category_limits, ∀ m, p.2.max_allocation = some m → 0 ≤ m) :
    ∀ l, applyLimitsGo category_limits allocations total_amount l =
      .ok (l.map (adjustLine category_limits allocations total_amount)) := by
  intro l
  induction l with
  | nil => rfl
  | cons a rest ih =>
    rw [applyLimitsGo,
      adjustLineE_ok category_limits allocations total_amount a htot hcaps, ih]
    rfl

/-- Under a nonzero total and nonnegative configured caps,
_apply_category_limits succeeds and maps every line through the pure
per-line adjustment. -/
theorem apply_category_limits_ok (category_limits : List (String × CategoryLimit))
    (allocations : List AllocationLine) (total_amount : ℚ)
    (htot : total_amount ≠ 0)
    (hcaps : ∀ p ∈ category_limits, ∀ m, p.2.max_allocation = some m → 0 ≤ m) :
    _apply_category_limits category_limits allocations total_amount =
      .ok (allocations.map (adjustLine category_limits allocations total_amount)) := by
  rw [_apply_category_limits]
  by_cases hemp : category_limits = []
  · rw [if_pos hemp]
    subst hemp
    have hid : ∀ a ∈ allocations,
        adjustLine [] allocations total_amount a = a := fun a _ => rfl
    rw [List.map_congr_left hid]
    simp
  · rw [if_neg hemp,
      applyLimitsGo_ok category_limits allocations total_amount htot hcaps]

theorem categoryTotals_cons (a : AllocationLine) (l : List AllocationLine)
    (cat : String) :
    categoryTotals (a :: l) cat =
      (if a.category == cat then a.allocated_amount else 0) +
        categoryTotals l cat := by
  simp only [categoryTotals, List.filter_cons]
  split_ifs with h
  · simp
  · simp

theorem categoryTotals_map_le (f : AllocationLine → AllocationLine) :
    ∀ (l : List AllocationLine),
      (∀ a ∈ l, (f a).category = a.category) →
      (∀ a ∈ l, (f a).allocated_amount ≤ a.allocated_amount) →
      ∀ cat, categoryTotals (l.map f) cat ≤ categoryTotals l cat := by
  intro l
  induction l with
  | nil =>
    intro _ _ cat
    simp [categoryTotals]
  | cons a rest ih =>
    intro hcat hle cat
    rw [List.map_cons, categoryTotals_cons, categoryTotals_cons,
      hcat a (List.mem_cons_self a rest)]
    refine add_le_add ?_ (ih (fun x hx => hcat x (List.mem_cons_of_mem a hx))
      (fun x hx => hle x (List.mem_cons_of_mem a hx)) cat)
    split_ifs with h
    · exact hle a (List.mem_cons_self a rest)
    · exact le_refl 0

theorem adjustLine_category (category_limits : List (String × CategoryLimit))
    (allocations : List AllocationLine) (total_amount : ℚ)
    (a : AllocationLine) :
    (adjustLine category_limits allocations total_amount a).category =
      a.category := by
  unfold adjustLine
  cases capOf category_limits a.category with
  | none => rfl
  | some m =>
    dsimp only
    split_ifs <;> rfl

/-- C6: with a positive total, nonnegative allocations and positive
configured caps, _apply_category_limits succeeds, never increases any
line, scales every line of an over-cap category by the common factor
cap divided by actual ratio (a factor below one), leaves lines of
within-cap or cap-free categories unchanged, and shrinks every
category total. -/
theorem c6_category_scaling_only_shrinks
    (category_limits : List (String × CategoryLimit))
    (allocations : List AllocationLine) (total_amount : ℚ)
    (htot : 0 < total_amount)
    (hnn : ∀ a ∈ allocations, 0 ≤ a.allocated_amount)
    (hcaps : ∀ p ∈ category_limits, ∀ m, p.2.max_allocation = some m → 0 < m) :
    ∃ out, _apply_category_limits category_limits allocations total_amount = .ok out ∧
      out = allocations.map (adjustLine category_limits allocations total_amount) ∧
      (∀ a ∈ allocations,
        (adjustLine category_limits allocations total_amount a).allocated_amount
            ≤ a.allocated_amount ∧
        (∀ m, capOf category_limits a.category = some m →
          m < categoryTotals allocations a.category / total_amount →
          adjustLine category_limits allocations total_amount a =
            { a with
              allocated_amount := a.allocated_amount *
                (m / (categoryTotals allocations a.category / total_amount)),
              ratio := a.ratio *
                (m / (categoryTotals allocations a.category / total_amount)) } ∧
          m / (categoryTotals allocations a.category / total_amount) < 1) ∧
        (∀ m, capOf category_limits a.category = some m →
          categoryTotals allocations a.category / total_amount ≤ m →
          adjustLine category_limits allocations total_amount a = a) ∧
        (capOf category_limits a.category = none →
          adjustLine category_limits allocations total_amount a = a)) ∧
      (∀ cat, categoryTotals (allocations.map
            (adjustLine category_limits allocations total_amount)) cat ≤
          categoryTotals allocations cat) := by
  have hcaps0 : ∀ p ∈ category_limits, ∀ m, p.2.max_allocation = some m → 0 ≤ m :=
    fun p hp m hm => (hcaps p hp m hm).le
  have hok := apply_category_limits_ok category_limits allocations total_amount
    (ne_of_gt htot) hcaps0
  have hline : ∀ a ∈ allocations,
      (adjustLine category_limits allocations total_amount a).allocated_amount
          ≤ a.allocated_amount ∧
      (∀ m, capOf category_limits a.category = some m →
        m < categoryTotals allocations a.category / total_amount →
        adjustLine category_limits allocations total_amount a =
          { a with
            allocated_amount := a.allocated_amount *
              (m / (categoryTotals allocations a.category / total_amount)),
            ratio := a.ratio *
              (m / (categoryTotals allocations a.category / total_amount)) } ∧
        m / (categoryTotals allocations a.category / total_amount) < 1) ∧
      (∀ m, capOf category_limits a.category = some m →
        categoryTotals allocations a.category / total_amount ≤ m →
        adjustLine category_limits allocations total_amount a = a) ∧
      (capOf category_limits a.category = none →
        adjustLine category_limits allocations total_amount a = a) := by
    intro a ha
    cases hcap : capOf category_limits a.category with
    | none =>
      have heq : adjustLine category_limits allocations total_amount a = a := by
        unfold adjustLine
        rw [hcap]
      refine ⟨le_of_eq (by rw [heq]), ?_, ?_, fun _ => heq⟩
      · intro m hm
        exact absurd hm (by simp)
      · intro m hm _
        exact Option.noConfusion hm
    | some m0 =>
      have hm0 : 0 < m0 := by
        obtain ⟨p, hp, hpv⟩ := capOf_some_mem hcap
        exact hcaps p hp m0 hpv
      by_cases hlt : m0 < categoryTotals allocations a.category / total_amount
      · have heq : adjustLine category_limits allocations total_amount a =
            { a with
              allocated_amount := a.allocated_amount *
                (m0 / (categoryTotals allocations a.category / total_amount)),
              ratio := a.ratio *
                (m0 / (categoryTotals allocations a.category / total_amount)) } := by
          unfold adjustLine
          rw [hcap]
          dsimp only
          rw [if_neg (ne_of_gt hm0), if_pos hlt]
        have hratio_pos : 0 < categoryTotals allocations a.category / total_amount :=
          lt_trans hm0 hlt
        have hfac : m0 / (categoryTotals allocations a.category / total_amount) < 1 :=
          (div_lt_one hratio_pos).mpr hlt
        have hfac0 : 0 ≤ m0 / (categoryTotals allocations a.category / total_amount) :=
          le_of_lt (div_pos hm0 hratio_pos)
        refine ⟨?_, ?_, ?_, ?_⟩
        · rw [heq]
          exact mul_le_of_le_one_right (hnn a ha) hfac.le
        · intro m hm hlt2
          injection hm with hmm
          subst hmm
          exact ⟨heq, hfac⟩
        · intro m hm hle
          injection hm with hmm
          subst hmm
          exact absurd hlt (not_lt.mpr hle)
        · intro hnone
          exact Option.noConfusion hnone
      · have heq : adjustLine category_limits allocations total_amount a = a := by
          unfold adjustLine
          rw [hcap]
          dsimp only
          rw [if_neg (ne_of_gt hm0), if_neg hlt]
        refine ⟨le_of_eq (by rw [heq]), ?_, ?_, ?_⟩
        · intro m hm hlt2
          injection hm with hmm
          subst hmm
          exact absurd hlt2 hlt
        · intro m hm _
          exact heq
        · intro _
          exact heq
  refine ⟨_, hok, rfl, hline, ?_⟩
  exact categoryTotals_map_le _ allocations
    (fun a _ => adjustLine_category category_limits allocations total_amount a)
    (fun a ha => (hline a ha).1)

/-- C10: a category whose configured max_allocation is absent or zero is
never scaled: _apply_category_limits leaves each of its lines unchanged,
even when its allocation is positive. -/
theorem c10_zero_cap_never_scaled
    (category_limits : List (String × CategoryLimit))
    (allocations : List AllocationLine) (total_amount : ℚ)
    (htot : total_amount ≠ 0)
    (hcaps : ∀ p ∈ category_limits, ∀ m, p.2.max_allocation = some m → 0 ≤ m) :
    ∃ out, _apply_category_limits category_limits allocations total_amount = .ok out ∧
      out = allocations.map (adjustLine category_limits allocations total_amount) ∧
      ∀ a ∈ allocations,
        (capOf category_limits a.category = none ∨
          capOf category_limits a.category = some 0) →
        adjustLine category_limits allocations total_amount a = a := by
  refine ⟨_, apply_category_limits_ok category_limits allocations total_amount
    htot hcaps, rfl, ?_⟩
  intro a _ hc
  rcases hc with hc | hc
  · unfold adjustLine
    rw [hc]
  · unfold adjustLine
    rw [hc]
    dsimp only
    rw [if_pos rfl]

theorem customGo_ok (total_ratio total_amount : ℚ) (h : total_ratio ≠ 0) :
    ∀ l : List ETF, customGo total_ratio total_amount l =
      .ok (l.map (fun etf =>
        ({ code := etf.code, name := etf.name, category := etf.category,
           allocated_amount := total_amount * (etf.custom_ratio / total_ratio),
           ratio := etf.custom_ratio / total_ratio,
           priority := etf.priority } : AllocationLine))) := by
  intro l
  induction l with
  | nil => rfl
  | cons e rest ih =>
    rw [customGo, if_neg h, ih]
    rfl

/-- C4: whenever the configured custom ratios do not sum to zero, CUSTOM
allocation succeeds (an off-one sum only triggers a warning print) and
the returned ratios, each equal to custom_ratio divided by the sum of the
custom ratios, add up to exactly one. -/
theorem c4_custom_allocation_normalises (active : List ETF) (total_amount : ℚ)
    (h : (active.map (fun e => e.custom_ratio)).sum ≠ 0) :
    ∃ lines, _custom_allocation active total_amount = .ok lines ∧
      (lines.map (fun l => l.ratio)).sum = 1 := by
  unfold _custom_allocation
  rw [customGo_ok _ _ h]
  refine ⟨_, rfl, ?_⟩
  have hperm := List.perm_insertionSort lineLe (active.map (fun etf =>
    ({ code := etf.code, name := etf.name, category := etf.category,
       allocated_amount := total_amount *
         (etf.custom_ratio / (active.map (fun e => e.custom_ratio)).sum),
       ratio := etf.custom_ratio / (active.map (fun e => e.custom_ratio)).sum,
       priority := etf.priority } : AllocationLine)))
  rw [(hperm.map (fun l => l.ratio)).sum_eq, List.map_map]
  have hfun : ((fun l : AllocationLine => l.ratio) ∘ (fun etf : ETF =>
      ({ code := etf.code, name := etf.name, category := etf.category,
         allocated_amount := total_amount *
           (etf.custom_ratio / (active.map (fun e => e.custom_ratio)).sum),
         ratio := etf.custom_ratio / (active.map (fun e => e.custom_ratio)).sum,
         priority := etf.priority } : AllocationLine))) =
      fun etf : ETF => etf.custom_ratio *
        ((active.map (fun e => e.custom_ratio)).sum)⁻¹ :=
    funext (fun etf => div_eq_mul_inv _ _)
  rw [hfun, List.sum_map_mul_right]
  exact mul_inv_cancel₀ h

/-- C5: in quantity resolution a code that is absent from the price map is
skipped and the batch continues; a zero price raises a division error; a
listed non-zero price is processed into an order, with no price-validity
check of its own. -/
theorem c5_price_handling (alloc : AllocationLine)
    (allocations : List AllocationLine)
    (current_prices : List (String × ℚ)) :
    (current_prices.lookup alloc.code = none →
      calculate_buy_quantities (alloc :: allocations) current_prices =
        calculate_buy_quantities allocations current_prices) ∧
    (current_prices.lookup alloc.code = some 0 →
      calculate_buy_quantities (alloc :: allocations) current_prices =
        .error .zeroDivision) ∧
    (∀ price, current_prices.lookup alloc.code = some price → price ≠ 0 →
      ∀ os rem, resolveOrders allocations current_prices = .ok (os, rem) →
        resolveOrders (alloc :: allocations) current_prices = .ok
          ({ code := alloc.code, name := alloc.name, category := alloc.category,
             allocated_amount := alloc.allocated_amount, current_price := price,
             quantity := pyInt (alloc.allocated_amount / price),
             actual_amount := (pyInt (alloc.allocated_amount / price) : ℚ) * price,
             remainder := alloc.allocated_amount -
               (pyInt (alloc.allocated_amount / price) : ℚ) * price,
             priority := alloc.priority } :: os,
            (alloc.allocated_amount -
              (pyInt (alloc.allocated_amount / price) : ℚ) * price) + rem)) := by
  refine ⟨?_, ?_, ?_⟩
  · intro h
    unfold calculate_buy_quantities calculate_buy_quantities_full
    rw [resolveOrders, h]
  · intro h
    unfold calculate_buy_quantities calculate_buy_quantities_full
    rw [resolveOrders, h]
    dsimp only
    rw [if_pos rfl]
  · intro price h hne os rem hok
    rw [resolveOrders, h]
    dsimp only
    rw [if_neg hne, hok]

/-- C8: remainder redistribution is one forward pass that stops entirely
at the first order whose price exceeds the running remainder; every later
order, cheaper or not, is returned unchanged and the running remainder is
left unspent. -/
theorem c8_redistribution_single_forward_pass (l1 : List BuyOrder)
    (o : BuyOrder) (l2 : List BuyOrder) (r : ℚ)
    (h : (_redistribute_remainder l1 r).2 < o.current_price) :
    _redistribute_remainder (l1 ++ o :: l2) r =
      ((_redistribute_remainder l1 r).1 ++ o :: l2,
        (_redistribute_remainder l1 r).2) := by
  induction l1 generalizing r with
  | nil =>
    simp only [_redistribute_remainder] at h
    simp [_redistribute_remainder, h]
  | cons o1 rest ih =>
    simp only [List.cons_append, _redistribute_remainder] at h ⊢
    by_cases hb : r < o1.current_price
    · simp only [if_pos hb] at h ⊢
      simp
    · simp only [if_neg hb] at h ⊢
      by_cases hq : 0 < pyInt (r / o1.current_price)
      · simp only [if_pos hq] at h ⊢
        have hih := ih (r - (pyInt (r / o1.current_price) : ℚ) * o1.current_price) h
        simp [List.append_eq, hih]
      · simp only [if_neg hq] at h ⊢
        have hih := ih r h
        simp [List.append_eq, hih]

/-- C7: REGULAR-mode allocation fails with a ValueError naming the unknown
allocation method, whereas DIP-mode allocation with an unknown
dip_allocation_method does not fail and falls back to equal allocation. -/
theorem c7_unknown_method_dispatch (allocation_method dip_allocation_method : String)
    (category_limits : List (String × CategoryLimit)) (active : List ETF)
    (total_amount : ℚ)
    (h1 : allocation_method ≠ "EQUAL") (h2 : allocation_method ≠ "WEIGHTED")
    (h3 : allocation_method ≠ "CUSTOM")
    (d1 : dip_allocation_method ≠ "FOCUS") (d2 : dip_allocation_method ≠ "EQUAL")
    (d3 : dip_allocation_method ≠ "WEIGHTED") :
    _calculate_regular_allocation allocation_method category_limits active
        total_amount =
      .error (.valueError ("Unknown allocation method: " ++ allocation_method)) ∧
    _calculate_dip_allocation dip_allocation_method category_limits active
        total_amount =
      _equal_allocation active total_amount := by
  constructor
  · unfold _calculate_regular_allocation
    rw [if_neg h1, if_neg h2, if_neg h3]
  · unfold _calculate_dip_allocation
    rw [if_neg d1, if_neg d2, if_neg d3]

/-- C9: on every normal (non-raising) return of execute_dip_buy the
original active universe is restored; the narrowing to flagged codes is
visible afterwards only when the allocation pipeline raised. -/
theorem c9_universe_restored_on_normal_return
    (allocation_method dip_allocation_method : String)
    (category_limits : List (String × CategoryLimit)) (active_etfs : List ETF)
    (balance dip_buy_amount : ℚ) (opportunities : List Opportunity)
    (auto_trade order_success : Bool) (b : Bool)
    (h : (execute_dip_buy allocation_method dip_allocation_method category_limits
        active_etfs balance dip_buy_amount opportunities auto_trade
        order_success).1 = .ok b) :
    (execute_dip_buy allocation_method dip_allocation_method category_limits
        active_etfs balance dip_buy_amount opportunities auto_trade
        order_success).2 = active_etfs := by
  unfold execute_dip_buy at h ⊢
  by_cases h1 : opportunities = []
  · rw [if_pos h1]
  · rw [if_neg h1] at h ⊢
    by_cases h2 : balance < dip_buy_amount
    · rw [if_pos h2]
    · rw [if_neg h2] at h ⊢
      dsimp only at h ⊢
      cases hca : calculate_allocation allocation_method dip_allocation_method
          category_limits
          (active_etfs.filter
            (fun etf => (opportunities.map (fun o => o.code)).contains etf.code))
          dip_buy_amount "DIP" with
      | error e =>
        rw [hca] at h
        simp at h
      | ok allocations =>
        rw [hca] at h
        dsimp only at h
        cases hbq : calculate_buy_quantities allocations
            ((opportunities.map (fun o => (o.code, o.current_price))).reverse) with
        | error e =>
          rw [hbq] at h
          simp at h
        | ok buy_orders =>
          split_ifs <;> simp [hbq]

/-- C1 (amended): in the scenario universe = A(priority 1, weight 2),
B(priority 2, weight 1), total 300000, WEIGHTED, no category limits,
prices A 150000 and B 40000, the pipeline allocates A 200000 and B 100000,
resolves A to quantity 1 (actual 150000) and B to quantity 2 (actual
80000), and the 70000 remainder is left entirely unspent because the
redistribution pass breaks at A (70000 < 150000) before ever reaching B. -/
theorem c1_weighted_scenario :
    calculate_allocation "WEIGHTED" "FOCUS" []
      [{ code := "A", name := "Alpha", category := "UNKNOWN", priority := 1,
         weight := 2, custom_ratio := 0 },
       { code := "B", name := "Beta", category := "UNKNOWN", priority := 2,
         weight := 1, custom_ratio := 0 }] 300000 "REGULAR" =
    .ok [{ code := "A", name := "Alpha", category := "UNKNOWN",
           allocated_amount := 200000, ratio := 2/3, priority := 1 },
         { code := "B", name := "Beta", category := "UNKNOWN",
           allocated_amount := 100000, ratio := 1/3, priority := 2 }] ∧
    calculate_buy_quantities_full
      [{ code := "A", name := "Alpha", category := "UNKNOWN",
         allocated_amount := 200000, ratio := 2/3, priority := 1 },
       { code := "B", name := "Beta", category := "UNKNOWN",
         allocated_amount := 100000, ratio := 1/3, priority := 2 }]
      [("A", 150000), ("B", 40000)] =
    .ok ([{ code := "A", name := "Alpha", category := "UNKNOWN",
            allocated_amount := 200000, current_price := 150000, quantity := 1,
            actual_amount := 150000, remainder := 50000, priority := 1 },
          { code := "B", name := "Beta", category := "UNKNOWN",
            allocated_amount := 100000, current_price := 40000, quantity := 2,
            actual_amount := 80000, remainder := 20000, priority := 2 }],
         70000) := by
  constructor
  · norm_num +decide [calculate_allocation, _calculate_regular_allocation,
      _weighted_allocation, weightedGo, _apply_category_limits,
      List.insertionSort, List.orderedInsert, lineLe]
  · have hA : pyInt ((4 : ℚ) / 3) = 1 := by
      rw [pyInt_eval_nonneg _ 1] <;> norm_num
    have hB : pyInt ((5 : ℚ) / 2) = 2 := by
      rw [pyInt_eval_nonneg _ 2] <;> norm_num
    norm_num +decide [calculate_buy_quantities_full, resolveOrders, List.lookup,
      hA, hB, List.insertionSort, List.orderedInsert, orderLe,
      _redistribute_remainder, (by decide : (("B" : String) == "A") = false),
      (by decide : (("B" : String) == "B") = true)]

/-- C1 counterexample: on the scenario of the claim the code does not
produce B quantity 3 with 30000 unspent; redistribution breaks at A, so
the result is B quantity 2 with 70000 unspent, different from the plan
the claim asserts. -/
theorem c1_counterexample :
    calculate_buy_quantities_full
      [{ code := "A", name := "Alpha", category := "UNKNOWN",
         allocated_amount := 200000, ratio := 2/3, priority := 1 },
       { code := "B", name := "Beta", category := "UNKNOWN",
         allocated_amount := 100000, ratio := 1/3, priority := 2 }]
      [("A", 150000), ("B", 40000)] =
    .ok ([{ code := "A", name := "Alpha", category := "UNKNOWN",
            allocated_amount := 200000, current_price := 150000, quantity := 1,
            actual_amount := 150000, remainder := 50000, priority := 1 },
          { code := "B", name := "Beta", category := "UNKNOWN",
            allocated_amount := 100000, current_price := 40000, quantity := 2,
            actual_amount := 80000, remainder := 20000, priority := 2 }],
         70000) ∧
    calculate_buy_quantities_full
      [{ code := "A", name := "Alpha", category := "UNKNOWN",
         allocated_amount := 200000, ratio := 2/3, priority := 1 },
       { code := "B", name := "Beta", category := "UNKNOWN",
         allocated_amount := 100000, ratio := 1/3, priority := 2 }]
      [("A", 150000), ("B", 40000)] ≠
    .ok ([{ code := "A", name := "Alpha", category := "UNKNOWN",
            allocated_amount := 200000, current_price := 150000, quantity := 1,
            actual_amount := 150000, remainder := 50000, priority := 1 },
          { code := "B", name := "Beta", category := "UNKNOWN",
            allocated_amount := 100000, current_price := 40000, quantity := 3,
            actual_amount := 120000, remainder := 20000, priority := 2 }],
         30000) := by
  have hA : pyInt ((4 : ℚ) / 3) = 1 := by
    rw [pyInt_eval_nonneg _ 1] <;> norm_num
  have hB : pyInt ((5 : ℚ) / 2) = 2 := by
    rw [pyInt_eval_nonneg _ 2] <;> norm_num
  constructor
  · norm_num +decide [calculate_buy_quantities_full, resolveOrders, List.lookup,
      hA, hB, List.insertionSort, List.orderedInsert, orderLe,
      _redistribute_remainder, (by decide : (("B" : String) == "A") = false),
      (by decide : (("B" : String) == "B") = true)]
  · norm_num +decide [calculate_buy_quantities_full, resolveOrders, List.lookup,
      hA, hB, List.insertionSort, List.orderedInsert, orderLe,
      _redistribute_remainder, (by decide : (("B" : String) == "A") = false),
      (by decide : (("B" : String) == "B") = true)]

/-- C3 counterexample: after redistribution grants A one extra unit, A's
stored remainder (10) no longer equals allocated minus actual
(100 - 120 = -20), refuting remainder = allocatedAmount - actualAmount
for the returned orders. -/
theorem c3_counterexample :
    calculate_buy_quantities_full
      [{ code := "A", name := "Alpha", category := "UNKNOWN",
         allocated_amount := 100, ratio := 1/2, priority := 1 },
       { code := "B", name := "Beta", category := "UNKNOWN",
         allocated_amount := 100, ratio := 1/2, priority := 2 }]
      [("A", 30), ("B", 70)] =
    .ok ([{ code := "A", name := "Alpha", category := "UNKNOWN",
            allocated_amount := 100, current_price := 30, quantity := 4,
            actual_amount := 120, remainder := 10, priority := 1 },
          { code := "B", name := "Beta", category := "UNKNOWN",
            allocated_amount := 100, current_price := 70, quantity := 1,
            actual_amount := 70, remainder := 30, priority := 2 }], 10) ∧
    (10 : ℚ) ≠ 100 - 120 := by
  constructor
  · have h1 : pyInt ((10 : ℚ) / 3) = 3 := by
      rw [pyInt_eval_nonneg _ 3] <;> norm_num
    have h2 : pyInt ((10 : ℚ) / 7) = 1 := by
      rw [pyInt_eval_nonneg _ 1] <;> norm_num
    have h3 : pyInt ((4 : ℚ) / 3) = 1 := by
      rw [pyInt_eval_nonneg _ 1] <;> norm_num
    norm_num +decide [calculate_buy_quantities_full, resolveOrders, List.lookup,
      h1, h2, h3, List.insertionSort, List.orderedInsert, orderLe,
      _redistribute_remainder, (by decide : (("B" : String) == "A") = false),
      (by decide : (("B" : String) == "B") = true)]
  · norm_num

/-- C4 counterexample: with a single active ETF whose custom_ratio is 0
the declared ratios sum to 0 and CUSTOM allocation raises a division by
zero instead of returning normalised lines, refuting the claim for every
non-empty universe. -/
theorem c4_counterexample :
    _custom_allocation
      [{ code := "A", name := "Alpha", category := "UNKNOWN", priority := 1,
         weight := 1, custom_ratio := 0 }] 100000 = .error .zeroDivision := by
  norm_num +decide [_custom_allocation, customGo]

/-- C5 counterexample: a negative price (-40) is not rejected: quantity
resolution returns an order with negative quantity instead of failing,
refuting the claim that every non-positive price fails with
InvalidPriceError. -/
theorem c5_counterexample :
    calculate_buy_quantities_full
      [{ code := "A", name := "Alpha", category := "UNKNOWN",
         allocated_amount := 100, ratio := 1, priority := 1 }]
      [("A", -40)] =
    .ok ([{ code := "A", name := "Alpha", category := "UNKNOWN",
            allocated_amount := 100, current_price := -40, quantity := -2,
            actual_amount := 80, remainder := 20, priority := 1 }], 20) := by
  have h1 : pyInt (-((5 : ℚ) / 2)) = -2 := by
    rw [pyInt_eval_neg _ (-2)] <;> norm_num
  have h2 : pyInt (-((1 : ℚ) / 2)) = 0 := by
    rw [pyInt_eval_neg _ 0] <;> norm_num
  norm_num +decide [calculate_buy_quantities_full, resolveOrders, List.lookup,
    h1, h2, List.insertionSort, List.orderedInsert, orderLe,
    _redistribute_remainder]

/-- C7 counterexample: an unknown dip_allocation_method (BANANA) does not
raise any configuration error; DIP allocation silently falls back to
equal allocation and succeeds. -/
theorem c7_counterexample :
    _calculate_dip_allocation "BANANA" []
      [{ code := "A", name := "Alpha", category := "UNKNOWN", priority := 1,
         weight := 1, custom_ratio := 0 }] 100000 =
    .ok [{ code := "A", name := "Alpha", category := "UNKNOWN",
           allocated_amount := 100000, ratio := 1, priority := 1 }] := by
  norm_num +decide [_calculate_dip_allocation, _equal_allocation,
    List.insertionSort, List.orderedInsert, lineLe]

/-- C9 counterexample: when the flagged code X matches no active ETF, the
narrowed universe is empty, equal allocation divides by zero, and
execute_dip_buy propagates the error with active_etfs still narrowed to
the empty list instead of the original universe. -/
theorem c9_counterexample :
    execute_dip_buy "EQUAL" "FOCUS" []
      [{ code := "A", name := "Alpha", category := "UNKNOWN", priority := 1,
         weight := 1, custom_ratio := 0 }]
      100000 50000 [{ code := "X", current_price := 10 }] false false =
    (.error .zeroDivision, []) ∧
    ([] : List ETF) ≠
      [{ code := "A", name := "Alpha", category := "UNKNOWN", priority := 1,
         weight := 1, custom_ratio := 0 }] := by
  constructor
  · norm_num +decide [execute_dip_buy, calculate_allocation,
      _calculate_dip_allocation, _equal_allocation, List.filter, List.contains]
  · simp

theorem c2_witness :
    (∀ x ∈ [(("A" : String), (30 : ℚ))], 0 < x.2) ∧
    (∃ os r, calculate_buy_quantities_full
        [{ code := "A", name := "Alpha", category := "UNKNOWN",
           allocated_amount := 100, ratio := 1, priority := 1 }]
        [("A", 30)] = .ok (os, r) ∧
      ((os.map (fun o => o.actual_amount)).sum) + r =
        (os.map (fun o => o.allocated_amount)).sum) := by
  have hpos : ∀ x ∈ [(("A" : String), (30 : ℚ))], 0 < x.2 := by
    intro x hx
    rw [List.mem_singleton] at hx
    subst hx
    norm_num
  exact ⟨hpos, quantity_resolution_conserves_money _ _ hpos⟩

theorem c3_witness :
    (∀ x ∈ [(("A" : String), (30 : ℚ))], 0 < x.2) ∧
    (∀ a ∈ [({ code := "A", name := "Alpha", category := "UNKNOWN",
               allocated_amount := 100, ratio := 1, priority := 1 } :
             AllocationLine)], 0 ≤ a.allocated_amount) ∧
    (∃ os r, calculate_buy_quantities_full
        [{ code := "A", name := "Alpha", category := "UNKNOWN",
           allocated_amount := 100, ratio := 1, priority := 1 }]
        [("A", 30)] = .ok (os, r) ∧
      ∀ o ∈ os, 0 < o.current_price ∧
        o.remainder = o.allocated_amount -
          (pyInt (o.allocated_amount / o.current_price) : ℚ) * o.current_price ∧
        0 ≤ o.remainder ∧ o.remainder < o.current_price) := by
  have hpos : ∀ x ∈ [(("A" : String), (30 : ℚ))], 0 < x.2 := by
    intro x hx
    rw [List.mem_singleton] at hx
    subst hx
    norm_num
  have hnn : ∀ a ∈
      ([{ code := "A", name := "Alpha", category := "UNKNOWN",
          allocated_amount := 100, ratio := 1, priority := 1 }] :
        List AllocationLine), 0 ≤ a.allocated_amount := by
    intro a ha
    rw [List.mem_singleton] at ha
    subst ha
    norm_num
  exact ⟨hpos, hnn, remainder_field_bounds _ _ hpos hnn⟩

theorem c4_witness :
    (([({ code := "A", name := "Alpha", category := "UNKNOWN", priority := 1,
          weight := 1, custom_ratio := 1/2 } : ETF),
       { code := "B", name := "Beta", category := "UNKNOWN", priority := 2,
         weight := 1, custom_ratio := 7/20 }].map
        (fun e => e.custom_ratio)).sum ≠ 0) ∧
    (∃ lines, _custom_allocation
        [{ code := "A", name := "Alpha", category := "UNKNOWN", priority := 1,
           weight := 1, custom_ratio := 1/2 },
         { code := "B", name := "Beta", category := "UNKNOWN", priority := 2,
           weight := 1, custom_ratio := 7/20 }] 100000 = .ok lines ∧
      (lines.map (fun l => l.ratio)).sum = 1) := by
  have h :
      ((([{ code := "A", name := "Alpha", category := "UNKNOWN",
            priority := 1, weight := 1, custom_ratio := 1/2 },
          { code := "B", name := "Beta", category := "UNKNOWN", priority := 2,
            weight := 1, custom_ratio := 7/20 }] : List ETF).map
        (fun e => e.custom_ratio)).sum ≠ 0) := by norm_num
  exact ⟨h, c4_custom_allocation_normalises _ _ h⟩

theorem c5_witness :
    calculate_buy_quantities
      [{ code := "A", name := "Alpha", category := "UNKNOWN",
         allocated_amount := 100, ratio := 1, priority := 1 }] [("B", 5)] =
      calculate_buy_quantities [] [("B", 5)] ∧
    calculate_buy_quantities
      [{ code := "A", name := "Alpha", category := "UNKNOWN",
         allocated_amount := 100, ratio := 1, priority := 1 }] [("A", 0)] =
      .error .zeroDivision ∧
    resolveOrders
      [{ code := "A", name := "Alpha", category := "UNKNOWN",
         allocated_amount := 100, ratio := 1, priority := 1 }] [("A", 40)] =
      .ok ([{ code := "A", name := "Alpha", category := "UNKNOWN",
              allocated_amount := 100, current_price := 40,
              quantity := pyInt ((100 : ℚ) / 40),
              actual_amount := (pyInt ((100 : ℚ) / 40) : ℚ) * 40,
              remainder := 100 - (pyInt ((100 : ℚ) / 40) : ℚ) * 40,
              priority := 1 }],
        (100 - (pyInt ((100 : ℚ) / 40) : ℚ) * 40) + 0) :=
  ⟨(c5_price_handling _ [] [("B", 5)]).1 (by decide),
   (c5_price_handling _ [] [("A", 0)]).2.1 (by decide),
   (c5_price_handling _ [] [("A", 40)]).2.2 40 (by decide) (by norm_num)
     [] 0 rfl⟩

theorem c7_witness :
    _calculate_regular_allocation "FOO" []
      [{ code := "A", name := "Alpha", category := "UNKNOWN", priority := 1,
         weight := 1, custom_ratio := 0 }] 100000 =
      .error (.valueError ("Unknown allocation method: " ++ "FOO")) ∧
    _calculate_dip_allocation "BAR" []
      [{ code := "A", name := "Alpha", category := "UNKNOWN", priority := 1,
         weight := 1, custom_ratio := 0 }] 100000 =
      _equal_allocation
        [{ code := "A", name := "Alpha", category := "UNKNOWN", priority := 1,
           weight := 1, custom_ratio := 0 }] 100000 :=
  c7_unknown_method_dispatch "FOO" "BAR" [] _ 100000 (by decide) (by decide)
    (by decide) (by decide) (by decide) (by decide)

theorem c8_witness :
    (_redistribute_remainder [] (70 : ℚ)).2 <
      ({ code := "A", name := "Alpha", category := "UNKNOWN",
         allocated_amount := 100, current_price := 100, quantity := 1,
         actual_amount := 100, remainder := 0,
         priority := 1 } : BuyOrder).current_price ∧
    _redistribute_remainder
      ([] ++ ({ code := "A", name := "Alpha", category := "UNKNOWN",
                allocated_amount := 100, current_price := 100, quantity := 1,
                actual_amount := 100, remainder := 0, priority := 1 } : BuyOrder) ::
        [{ code := "B", name := "Beta", category := "UNKNOWN",
           allocated_amount := 50, current_price := 40, quantity := 1,
           actual_amount := 40, remainder := 10, priority := 2 }]) 70 =
      ((_redistribute_remainder [] 70).1 ++
        ({ code := "A", name := "Alpha", category := "UNKNOWN",
           allocated_amount := 100, current_price := 100, quantity := 1,
           actual_amount := 100, remainder := 0, priority := 1 } : BuyOrder) ::
          [{ code := "B", name := "Beta", category := "UNKNOWN",
             allocated_amount := 50, current_price := 40, quantity := 1,
             actual_amount := 40, remainder := 10, priority := 2 }],
        (_redistribute_remainder [] 70).2) := by
  have h : (_redistribute_remainder [] (70 : ℚ)).2 <
      ({ code := "A", name := "Alpha", category := "UNKNOWN",
         allocated_amount := 100, current_price := 100, quantity := 1,
         actual_amount := 100, remainder := 0,
         priority := 1 } : BuyOrder).current_price := by
    norm_num [_redistribute_remainder]
  exact ⟨h, c8_redistribution_single_forward_pass [] _ _ 70 h⟩

theorem c9_witness :
    (execute_dip_buy "EQUAL" "FOCUS" []
      [{ code := "A", name := "Alpha", category := "UNKNOWN", priority := 1,
         weight := 1, custom_ratio := 0 }]
      100000 50000 [{ code := "A", current_price := 10 }] false false).1 =
      .ok true ∧
    (execute_dip_buy "EQUAL" "FOCUS" []
      [{ code := "A", name := "Alpha", category := "UNKNOWN", priority := 1,
         weight := 1, custom_ratio := 0 }]
      100000 50000 [{ code := "A", current_price := 10 }] false false).2 =
      [{ code := "A", name := "Alpha", category := "UNKNOWN", priority := 1,
         weight := 1, custom_ratio := 0 }] := by
  have h1 : pyInt (5000 : ℚ) = 5000 := by
    rw [pyInt_eval_nonneg _ 5000] <;> norm_num
  have hEval : (execute_dip_buy "EQUAL" "FOCUS" []
      [{ code := "A", name := "Alpha", category := "UNKNOWN", priority := 1,
         weight := 1, custom_ratio := 0 }]
      100000 50000 [{ code := "A", current_price := 10 }] false false).1 =
      .ok true := by
    norm_num +decide [execute_dip_buy, calculate_allocation,
      _calculate_dip_allocation, _equal_allocation, List.filter, List.contains,
      calculate_buy_quantities, calculate_buy_quantities_full, resolveOrders,
      List.lookup, h1, List.insertionSort, List.orderedInsert, orderLe,
      _redistribute_remainder]
  exact ⟨hEval,
    c9_universe_restored_on_normal_return "EQUAL" "FOCUS" [] _ 100000 50000
      [{ code := "A", current_price := 10 }] false false true hEval⟩

theorem c6_witness :
    (0 : ℚ) < 100 ∧
    (∀ a ∈
      ([{ code := "T", name := "Tech", category := "TECH",
          allocated_amount := 80, ratio := 4/5, priority := 1 }] :
        List AllocationLine), 0 ≤ a.allocated_amount) ∧
    (∀ p ∈
      ([("TECH", { max_allocation := some (1/2) })] :
        List (String × CategoryLimit)),
      ∀ m, p.2.max_allocation = some m → 0 < m) ∧
    (∃ out, _apply_category_limits
        [("TECH", { max_allocation := some (1/2) })]
        [{ code := "T", name := "Tech", category := "TECH",
           allocated_amount := 80, ratio := 4/5, priority := 1 }] 100 =
        .ok out ∧
      out = [({ code := "T", name := "Tech", category := "TECH",
                allocated_amount := 80, ratio := 4/5, priority := 1 } :
              AllocationLine)].map
        (adjustLine [("TECH", { max_allocation := some (1/2) })]
          [{ code := "T", name := "Tech", category := "TECH",
             allocated_amount := 80, ratio := 4/5, priority := 1 }] 100) ∧
      (∀ a ∈
        ([{ code := "T", name := "Tech", category := "TECH",
            allocated_amount := 80, ratio := 4/5, priority := 1 }] :
          List AllocationLine),
        (adjustLine [("TECH", { max_allocation := some (1/2) })]
          [{ code := "T", name := "Tech", category := "TECH",
             allocated_amount := 80, ratio := 4/5, priority := 1 }] 100
          a).allocated_amount ≤ a.allocated_amount ∧
        (∀ m, capOf [("TECH", { max_allocation := some (1/2) })] a.category =
            some m →
          m < categoryTotals
            [{ code := "T", name := "Tech", category := "TECH",
               allocated_amount := 80, ratio := 4/5, priority := 1 }]
            a.category / 100 →
          adjustLine [("TECH", { max_allocation := some (1/2) })]
            [{ code := "T", name := "Tech", category := "TECH",
               allocated_amount := 80, ratio := 4/5, priority := 1 }] 100 a =
            { a with
              allocated_amount := a.allocated_amount *
                (m / (categoryTotals
                  [{ code := "T", name := "Tech", category := "TECH",
                     allocated_amount := 80, ratio := 4/5, priority := 1 }]
                  a.category / 100)),
              ratio := a.ratio *
                (m / (categoryTotals
                  [{ code := "T", name := "Tech", category := "TECH",
                     allocated_amount := 80, ratio := 4/5, priority := 1 }]
                  a.category / 100)) } ∧
          m / (categoryTotals
            [{ code := "T", name := "Tech", category := "TECH",
               allocated_amount := 80, ratio := 4/5, priority := 1 }]
            a.category / 100) < 1) ∧
        (∀ m, capOf [("TECH", { max_allocation := some (1/2) })] a.category =
            some m →
          categoryTotals
            [{ code := "T", name := "Tech", category := "TECH",
               allocated_amount := 80, ratio := 4/5, priority := 1 }]
            a.category / 100 ≤ m →
          adjustLine [("TECH", { max_allocation := some (1/2) })]
            [{ code := "T", name := "Tech", category := "TECH",
               allocated_amount := 80, ratio := 4/5, priority := 1 }] 100 a =
            a) ∧
        (capOf [("TECH", { max_allocation := some (1/2) })] a.category = none →
          adjustLine [("TECH", { max_allocation := some (1/2) })]
            [{ code := "T", name := "Tech", category := "TECH",
               allocated_amount := 80, ratio := 4/5, priority := 1 }] 100 a =
            a)) ∧
      (∀ cat, categoryTotals
          ([({ code := "T", name := "Tech", category := "TECH",
               allocated_amount := 80, ratio := 4/5, priority := 1 } :
             AllocationLine)].map
            (adjustLine [("TECH", { max_allocation := some (1/2) })]
              [{ code := "T", name := "Tech", category := "TECH",
                 allocated_amount := 80, ratio := 4/5, priority := 1 }] 100))
          cat ≤
        categoryTotals
          [{ code := "T", name := "Tech", category := "TECH",
             allocated_amount := 80, ratio := 4/5, priority := 1 }] cat)) := by
  have h1 : (0 : ℚ) < 100 := by norm_num
  have h2 : ∀ a ∈
      ([{ code := "T", name := "Tech", category := "TECH",
          allocated_amount := 80, ratio := 4/5, priority := 1 }] :
        List AllocationLine), 0 ≤ a.allocated_amount := by
    intro a ha
    rw [List.mem_singleton] at ha
    subst ha
    norm_num
  have h3 : ∀ p ∈
      ([("TECH", { max_allocation := some (1/2) })] :
        List (String × CategoryLimit)),
      ∀ m, p.2.max_allocation = some m → 0 < m := by
    intro p hp m hm
    rw [List.mem_singleton] at hp
    subst hp
    injection hm with h
    subst h
    norm_num
  exact ⟨h1, h2, h3, c6_category_scaling_only_shrinks _ _ _ h1 h2 h3⟩

theorem c10_witness :
    ((100 : ℚ) ≠ 0) ∧
    (∀ p ∈
      ([("CRYPTO", { max_allocation := some 0 })] :
        List (String × CategoryLimit)),
      ∀ m, p.2.max_allocation = some m → 0 ≤ m) ∧
    (∃ out, _apply_category_limits
        [("CRYPTO", { max_allocation := some 0 })]
        [{ code := "C", name := "Coin", category := "CRYPTO",
           allocated_amount := 50, ratio := 1/2, priority := 1 }] 100 =
        .ok out ∧
      out = [({ code := "C", name := "Coin", category := "CRYPTO",
                allocated_amount := 50, ratio := 1/2, priority := 1 } :
              AllocationLine)].map
        (adjustLine [("CRYPTO", { max_allocation := some 0 })]
          [{ code := "C", name := "Coin", category := "CRYPTO",
             allocated_amount := 50, ratio := 1/2, priority := 1 }] 100) ∧
      ∀ a ∈
        ([{ code := "C", name := "Coin", category := "CRYPTO",
            allocated_amount := 50, ratio := 1/2, priority := 1 }] :
          List AllocationLine),
        (capOf [("CRYPTO", { max_allocation := some 0 })] a.category = none ∨
          capOf [("CRYPTO", { max_allocation := some 0 })] a.category =
            some 0) →
        adjustLine [("CRYPTO", { max_allocation := some 0 })]
          [{ code := "C", name := "Coin", category := "CRYPTO",
             allocated_amount := 50, ratio := 1/2, priority := 1 }] 100 a =
          a) := by
  have h1 : (100 : ℚ) ≠ 0 := by norm_num
  have h2 : ∀ p ∈
      ([("CRYPTO", { max_allocation := some 0 })] :
        List (String × CategoryLimit)),
      ∀ m, p.2.max_allocation = some m → 0 ≤ m := by
    intro p hp m hm
    rw [List.mem_singleton] at hp
    subst hp
    injection hm with h
    subst h
    norm_num
  exact ⟨h1, h2, c10_zero_cap_never_scaled _ _ _ h1 h2⟩
